import Mathlib

/-!
Verification of the modelguard pickle-scanning core against its
natural-language specification.  The definitions below are a shallow
embedding of `src/modelguard/core/opcodes.py`, `core/scanner.py`,
`core/policy.py` and `loaders/torch.py`.  The pickle disassembler
(`pickletools.genops`) is external library code; its output is modelled as
an `Except String (List OpRec)` input, and where a claim needs the real
stack-machine semantics of the pickle virtual machine a small reference
machine is defined from the specification's description of the stack and
memo table.
-/

/-- Decoded argument of one pickle opcode, as produced by the disassembler:
nothing, an integer, or a string. -/
inductive PArg where
  | none : PArg
  | int : Nat → PArg
  | str : String → PArg
deriving DecidableEq, Repr

/-- Python truthiness of a decoded argument (`if ... and arg:` in the
analysis loop): `None`, `0` and the empty string are falsy. -/
def PArg.truthy : PArg → Bool
  | .none => false
  | .int n => n != 0
  | .str s => s != ""

/-- Python `f"{...}"` rendering of a decoded argument, used when the
analysis loop joins popped stack values into a dotted import name. -/
def PArg.render : PArg → String
  | .none => "None"
  | .int n => toString n
  | .str s => s

/-- One disassembled opcode record: mnemonic, decoded argument and byte
offset, mirroring the `(opcode, arg, pos)` triples of the disassembler. -/
structure OpRec where
  name : String
  arg : PArg
  pos : Nat
deriving DecidableEq, Repr

/-- Embeds POTENTIALLY_DANGEROUS_OPCODES from core/opcodes.py. -/
def POTENTIALLY_DANGEROUS_OPCODES : List String :=
  ["GLOBAL", "REDUCE", "STACK_GLOBAL"]

/-- Embeds ALWAYS_DANGEROUS_OPCODES from core/opcodes.py. -/
def ALWAYS_DANGEROUS_OPCODES : List String :=
  ["EXT1", "EXT2", "EXT4"]

/-- Embeds SAFE_CLASSES from core/opcodes.py. -/
def SAFE_CLASSES : List String :=
  ["builtins.list", "builtins.tuple", "builtins.dict", "builtins.set",
   "builtins.frozenset", "builtins.str", "builtins.int", "builtins.float",
   "builtins.bool", "builtins.bytes", "builtins.bytearray",
   "collections.OrderedDict", "collections.defaultdict",
   "collections.Counter", "collections.deque",
   "numpy.ndarray", "numpy.dtype", "numpy.core.multiarray._reconstruct",
   "numpy.core.multiarray.scalar",
   "torch.Tensor", "torch.nn.parameter.Parameter", "torch.Size",
   "torch.dtype", "torch.device", "torch.storage._TypedStorage",
   "torch.storage._UntypedStorage", "torch.FloatStorage",
   "torch.LongStorage", "torch.IntStorage", "torch.DoubleStorage",
   "torch.ByteStorage", "torch.CharStorage", "torch.ShortStorage",
   "torch.HalfStorage", "torch.BoolStorage",
   "torch._utils._rebuild_tensor_v2", "torch._utils._rebuild_parameter",
   "sklearn.linear_model._base.LinearRegression",
   "sklearn.linear_model._logistic.LogisticRegression",
   "sklearn.ensemble._forest.RandomForestClassifier",
   "sklearn.ensemble._forest.RandomForestRegressor",
   "sklearn.svm._classes.SVC", "sklearn.svm._classes.SVR",
   "sklearn.tree._classes.DecisionTreeClassifier",
   "sklearn.tree._classes.DecisionTreeRegressor",
   "sklearn.preprocessing._data.StandardScaler",
   "sklearn.preprocessing._data.MinMaxScaler",
   "sklearn.preprocessing._label.LabelEncoder",
   "sklearn.model_selection._split.train_test_split",
   "joblib.numpy_pickle.NumpyArrayWrapper",
   "joblib.numpy_pickle.ZNDArrayWrapper"]

/-- Character-list prefix test, used to implement the string predicates in
a way the kernel evaluates directly. -/
def listPref : List Char → List Char → Bool
  | [], _ => true
  | _ :: _, [] => false
  | a :: as, b :: bs => a == b && listPref as bs

/-- Python `s.startswith(pat)`. -/
def strStarts (s pat : String) : Bool :=
  listPref pat.data s.data

/-- Python `s.endswith(pat)`. -/
def strEnds (s pat : String) : Bool :=
  listPref pat.data.reverse s.data.reverse

/-- Character-list infix test. -/
def listInf (pat : List Char) : List Char → Bool
  | [] => listPref pat []
  | b :: bs => listPref pat (b :: bs) || listInf pat bs

/-- Python substring containment `pat in s`. -/
def strContains (s pat : String) : Bool :=
  listInf pat.data s.data

/-- Splits a character list on a separator character, Python
`str.split(sep)` style: the result always has one more part than there
are separators. -/
def splitOnChar (c : Char) : List Char → List (List Char)
  | [] => [[]]
  | a :: rest =>
    let r := splitOnChar c rest
    if a == c then [] :: r
    else
      match r with
      | h :: t => (a :: h) :: t
      | [] => [[a]]

/-- Python `s.split(".")`. -/
def splitDots (s : String) : List String :=
  (splitOnChar '.' s.data).map String.mk

/-- Python `s.lower()` (ASCII lowering, which is all the scanner's
extension comparisons need). -/
def strLower (s : String) : String :=
  ⟨s.data.map Char.toLower⟩

/-- Embeds the `dangerous_patterns` local list of `_is_safe_import`. -/
def dangerous_patterns : List String :=
  ["os.system", "os.popen", "os.exec", "os.spawn",
   "subprocess.", "eval", "exec", "compile",
   "__import__", "importlib",
   "urllib.", "requests.", "http.",
   "socket.", "ftplib.", "smtplib.",
   "nt.system", "posix.system"]

/-- Embeds the `safe_patterns` local list of `_is_safe_import`. -/
def safe_patterns : List String :=
  ["numpy.", "torch.", "sklearn.", "tensorflow.",
   "collections.", "builtins.", "joblib.",
   "_pickle.", "copyreg.", "functools."]

/-- Embeds `_is_safe_import` from core/opcodes.py: the static analyzer's
allow check on a dotted import name. -/
def _is_safe_import (imp : String) : Bool :=
  if imp = "UNKNOWN_STACK_GLOBAL" then false
  else if dangerous_patterns.any (fun p => strContains imp p) then false
  else if safe_patterns.any (fun p => strStarts imp p) then true
  else if strContains imp "." &&
      !(strStarts imp "os." || strStarts imp "subprocess." ||
        strStarts imp "sys.") then
    let parts := splitDots imp
    decide (parts.length = 2) &&
      (strEnds (parts.getD 0 "") "_" ||
        decide ((parts.getD 1 "") ∈ ["dtype", "shape", "size", "ndim", "scalar"]))
  else false

/-- Ops with an always-dangerous mnemonic, in stream order: the
`always_dangerous_found` accumulator of `analyze_pickle_opcodes`. -/
def always_dangerous_found (ops : List OpRec) : List OpRec :=
  ops.filter (fun r => decide (r.name ∈ ALWAYS_DANGEROUS_OPCODES))

/-- Ops with a potentially-dangerous mnemonic, in stream order: the
`potentially_dangerous_found` accumulator of `analyze_pickle_opcodes`. -/
def potentially_dangerous_found (ops : List OpRec) : List OpRec :=
  ops.filter (fun r => decide (r.name ∈ POTENTIALLY_DANGEROUS_OPCODES))

/-- The simulated-stack loop of `analyze_pickle_opcodes`: threads the
literal stack (only SHORT_BINUNICODE pushes; only STACK_GLOBAL pops) and
returns `(global_imports, stack_global_imports)` in stream order.  The
stack is represented most-recent-first. -/
def globalsLoop : List OpRec → List PArg → List String × List String
  | [], _ => ([], [])
  | op :: rest, stack =>
    if op.name = "SHORT_BINUNICODE" && op.arg.truthy then
      globalsLoop rest (op.arg :: stack)
    else if op.name = "STACK_GLOBAL" then
      match stack with
      | nm :: md :: stack' =>
        let imp := md.render ++ "." ++ nm.render
        let (g, sg) := globalsLoop rest stack'
        (imp :: g, imp :: sg)
      | _ =>
        let (g, sg) := globalsLoop rest stack
        ("UNKNOWN_STACK_GLOBAL" :: g, "UNKNOWN_STACK_GLOBAL" :: sg)
    else if op.name = "GLOBAL" && op.arg.truthy then
      let (g, sg) := globalsLoop rest stack
      (op.arg.render :: g, sg)
    else
      globalsLoop rest stack

/-- The `global_imports` list accumulated by `analyze_pickle_opcodes`. -/
def global_imports (ops : List OpRec) : List String :=
  (globalsLoop ops []).1

/-- The `stack_global_imports` list accumulated by
`analyze_pickle_opcodes`. -/
def stack_global_imports (ops : List OpRec) : List String :=
  (globalsLoop ops []).2

/-- The `unsafe_imports` list of `analyze_pickle_opcodes`: imports that are
neither an exact SAFE_CLASSES entry nor accepted by `_is_safe_import`. -/
def unsafe_imports (ops : List OpRec) : List String :=
  (global_imports ops).filter
    (fun imp => !(decide (imp ∈ SAFE_CLASSES)) && !(_is_safe_import imp))

/-- The deduplicated `opcodes_found` collection, in first-seen order. -/
def opcodes_found (ops : List OpRec) : List String :=
  ops.foldl (fun acc r => if r.name ∈ acc then acc else acc ++ [r.name]) []

/-- Result dictionary of `analyze_pickle_opcodes`.  On the parse-error
path the Python dict carries only the `error` and `is_safe` keys; the
list fields are empty there, matching how every consumer reads the
missing keys (`.get` yields a falsy default). -/
structure AnalysisResult where
  error : Option String
  is_safe : Bool
  opcodes_found : List String
  dangerous_opcodes : List OpRec
  global_imports : List String
  stack_global_imports : List String
  unsafe_imports : List String
  total_opcodes : Nat
deriving DecidableEq, Repr

/-- Embeds `analyze_pickle_opcodes` from core/opcodes.py.  The argument is
the outcome of the external disassembler `pickletools.genops`: the whole
`try` body either materialises the opcode list or raises, and the
`except` clause folds the fault into an error verdict. -/
def analyze_pickle_opcodes : Except String (List OpRec) → AnalysisResult
  | .error e =>
    { error := some ("Failed to parse pickle: " ++ e)
      is_safe := false
      opcodes_found := []
      dangerous_opcodes := []
      global_imports := []
      stack_global_imports := []
      unsafe_imports := []
      total_opcodes := 0 }
  | .ok ops =>
    { error := none
      is_safe :=
        (always_dangerous_found ops).isEmpty && (unsafe_imports ops).isEmpty
      opcodes_found := opcodes_found ops
      dangerous_opcodes :=
        always_dangerous_found ops ++
          (if (unsafe_imports ops).isEmpty then []
           else potentially_dangerous_found ops)
      global_imports := global_imports ops
      stack_global_imports := stack_global_imports ops
      unsafe_imports := unsafe_imports ops
      total_opcodes := ops.length }

/-- Embeds the `safe_globals` set of `RestrictedUnpickler.__init__` in
loaders/torch.py. -/
def safe_globals : List String :=
  ["torch._utils._rebuild_tensor_v2", "torch._utils._rebuild_parameter",
   "torch.nn.parameter.Parameter", "torch.Tensor", "torch.Size",
   "torch.dtype", "torch.device", "torch.storage._TypedStorage",
   "torch.storage._UntypedStorage",
   "collections.OrderedDict", "collections.defaultdict",
   "collections.Counter", "collections.deque",
   "numpy.ndarray", "numpy.dtype", "numpy.core.multiarray._reconstruct",
   "numpy.core.multiarray.scalar",
   "builtins.list", "builtins.tuple", "builtins.dict", "builtins.set",
   "builtins.frozenset"]

/-- Embeds the `safe_modules` local list of
`RestrictedUnpickler.find_class`. -/
def safe_modules : List String :=
  ["torch", "numpy", "collections", "builtins"]

/-- Embeds `RestrictedUnpickler.find_class` from loaders/torch.py: `ok`
means the restricted interpreter defers to the default resolver, so the
named symbol is resolved and construction proceeds; `error` is the
MaliciousModelError raised before resolution. -/
def find_class (module nm : String) : Except String (String × String) :=
  let full_name := module ++ "." ++ nm
  if full_name ∈ safe_globals then .ok (module, nm)
  else if safe_modules.any (fun m => strStarts module m) then .ok (module, nm)
  else .error ("Attempted to load unsafe class: " ++ full_name)

/-- Modelled from the spec: allow-list membership as the spec words it for
the restricted interpreter — an exact allow-listed entry, or a module
falling under an allow-listed module prefix at a real module boundary
(the module is the allowed module itself, or extends it past a dot). -/
def allowed_spec_interp (module nm : String) : Bool :=
  decide ((module ++ "." ++ nm) ∈ safe_globals) ||
    safe_modules.any (fun m => module == m || strStarts module (m ++ "."))

/-- Modelled from the spec: allow-list membership as the spec words it for
the static analyzer — an exact SAFE_CLASSES entry, or a dotted name under
one of the allow-listed module prefixes (each `safe_patterns` entry ends
in a dot, so prefix match there is already at a module boundary). -/
def allowed_spec_analyzer (imp : String) : Bool :=
  decide (imp ∈ SAFE_CLASSES) || safe_patterns.any (fun p => strStarts imp p)

/-- Embeds PolicyConfig from core/policy.py (defaults included). -/
structure PolicyConfig where
  enforce : Bool := false
  require_signatures : Bool := false
  trusted_signers : List String := []
  allow_unsigned : Bool := true
  scan_on_load : Bool := true
  max_file_size_mb : Nat := 1000
  timeout_seconds : Nat := 30
deriving DecidableEq, Repr

/-- Embeds `Policy.is_signer_trusted` from core/policy.py. -/
def is_signer_trusted (c : PolicyConfig) (signer : String) : Bool :=
  if c.trusted_signers.isEmpty then true
  else decide (signer ∈ c.trusted_signers)

/-- Outcome of `ModelScanner.scan_file` as the callers consume it: the
`is_safe` flag, the `error` detail (when the details dict carries one)
and the `threats` list. -/
structure ScanOutcome where
  is_safe : Bool
  error : Option String
  threats : List String
deriving DecidableEq, Repr

/-- Embeds `ModelScanner.supported_extensions`. -/
def supported_extensions : List String :=
  [".pkl", ".pickle", ".pth", ".pt", ".h5", ".hdf5", ".pb", ".onnx",
   ".joblib"]

/-- Embeds `ModelScanner._is_pickle_data`: at least two bytes, starting
with a protocol-2..5 marker or one of the legacy bytes `(`, `]`, `}`. -/
def _is_pickle_data (data : List Nat) : Bool :=
  match data with
  | a :: b :: _ =>
    (a == 0x80 && (b == 2 || b == 3 || b == 4 || b == 5)) ||
      a == 40 || a == 93 || a == 125
  | _ => false

/-- Threat strings one archive member contributes in
`ModelScanner._scan_zip_archive`: dangerous-opcode findings then
unsafe-import findings, each labeled with the member's file name. -/
def member_threats (fname : String) (a : AnalysisResult) : List String :=
  a.dangerous_opcodes.map
      (fun op => fname ++ ": Dangerous opcode " ++ op.name) ++
    a.unsafe_imports.map (fun imp => fname ++ ": Unsafe import " ++ imp)

/-- Embeds `ModelScanner._scan_zip_archive`.  An archive is modelled as
the list of member names paired with the disassembly outcome of the
member's bytes; opening or reading the archive may itself fail, which the
method's `except` clause folds into an unsafe result.  Only members whose
name ends in `.pkl` are analyzed. -/
def _scan_zip_archive
    (archive : Except String (List (String × Except String (List OpRec)))) :
    ScanOutcome :=
  match archive with
  | .error e => ⟨false, some ("Failed to scan ZIP archive: " ++ e), []⟩
  | .ok members =>
    let threats := members.foldl
      (fun acc m =>
        if strEnds m.1 ".pkl" then
          acc ++ member_threats m.1 (analyze_pickle_opcodes m.2)
        else acc) []
    ⟨threats.isEmpty, none, threats⟩

/-- Embeds `ModelScanner._scan_pickle_based`: reject data that is neither
pickle-marked nor a zip archive, otherwise analyze the opcodes and turn
dangerous opcodes and unsafe imports into threat strings. -/
def _scan_pickle_based (data : List Nat) (isZip : Bool)
    (parsed : Except String (List OpRec))
    (archive : Except String (List (String × Except String (List OpRec)))) :
    ScanOutcome :=
  if !_is_pickle_data data then
    if isZip then _scan_zip_archive archive
    else ⟨false, some "Not valid pickle or ZIP data", []⟩
  else
    let analysis := analyze_pickle_opcodes parsed
    match analysis.error with
    | some e => ⟨false, some e, []⟩
    | Option.none =>
      let threats :=
        analysis.dangerous_opcodes.map
            (fun op =>
              "Dangerous opcode: " ++ op.name ++ " at position " ++
                toString op.pos) ++
          analysis.unsafe_imports.map (fun imp => "Unsafe import: " ++ imp)
      ⟨threats.isEmpty && analysis.is_safe, none, threats⟩

/-- Embeds `ModelScanner._scan_by_format`: dispatch on the lowered file
extension; hdf5, protobuf and onnx files are reported safe without
scanning; anything else raises UnsupportedFormatError, modelled as the
`error` case. -/
def _scan_by_format (ext : String) (data : List Nat) (isZip : Bool)
    (parsed : Except String (List OpRec))
    (archive : Except String (List (String × Except String (List OpRec)))) :
    Except String ScanOutcome :=
  let s := strLower ext
  if s ∈ [".pkl", ".pickle", ".pth", ".pt", ".joblib"] then
    .ok (_scan_pickle_based data isZip parsed archive)
  else if s ∈ [".h5", ".hdf5"] then .ok ⟨true, none, []⟩
  else if s = ".pb" then .ok ⟨true, none, []⟩
  else if s = ".onnx" then .ok ⟨true, none, []⟩
  else .error ("Unsupported format: " ++ s)

/-- Embeds `ModelScanner.scan_file`: existence, file-kind and extension
pre-checks, then `_scan_by_format` with every internal exception folded
into an unsafe result by the surrounding `try`/`except`. -/
def scan_file (ext : String) (pathExists isFile : Bool) (data : List Nat)
    (isZip : Bool) (parsed : Except String (List OpRec))
    (archive : Except String (List (String × Except String (List OpRec)))) :
    ScanOutcome :=
  if !pathExists then ⟨false, some "File not found", []⟩
  else if !isFile then ⟨false, some "Not a file", []⟩
  else if !(decide (strLower ext ∈ supported_extensions)) then
    ⟨false, some ("Unsupported file extension: " ++ ext), []⟩
  else
    match _scan_by_format ext data isZip parsed archive with
    | .ok r => r
    | .error e => ⟨false, some ("Scan failed: " ++ e), []⟩

/-- Value of the reference pickle machine, tagged with its provenance so a
claim can speak about operands that were recalled from the memo table. -/
inductive RVal where
  | lit : String → RVal
  | memoRef : String → RVal
  | unknownV : RVal
deriving DecidableEq, Repr

/-- Forgets provenance when a value is stored to or recalled from the
memo table. -/
def RVal.core : RVal → RVal
  | .lit s => .memoRef s
  | v => v

/-- Modelled from the spec: the real stack-machine semantics that the
external pickle interpreter applies — literal pushes, remember (BINPUT),
pop, recall (BINGET) via the memo table — used only to identify the true
operands of the first stack-based import opcode of a stream.  Recalled
values are tagged `memoRef`. -/
def refStackGlobalOperands :
    List OpRec → List RVal → List (Nat × RVal) → Option (RVal × RVal)
  | [], _, _ => none
  | op :: rest, stack, memo =>
    if op.name = "SHORT_BINUNICODE" then
      match op.arg with
      | .str s => refStackGlobalOperands rest (RVal.lit s :: stack) memo
      | _ => refStackGlobalOperands rest (RVal.unknownV :: stack) memo
    else if op.name = "BINPUT" then
      match op.arg, stack with
      | .int n, v :: _ => refStackGlobalOperands rest stack ((n, v) :: memo)
      | _, _ => refStackGlobalOperands rest stack memo
    else if op.name = "POP" then
      refStackGlobalOperands rest stack.tail memo
    else if op.name = "BINGET" then
      match op.arg with
      | .int n =>
        let v := ((memo.find? (fun e => e.1 == n)).map
          (fun e => RVal.core e.2)).getD RVal.unknownV
        refStackGlobalOperands rest (v :: stack) memo
      | _ => refStackGlobalOperands rest (RVal.unknownV :: stack) memo
    else if op.name = "STACK_GLOBAL" then
      match stack with
      | nm :: md :: _ => some (md, nm)
      | _ => none
    else
      refStackGlobalOperands rest stack memo

/-- Helper: a list is empty exactly when it is the nil list. -/
theorem isEmptyIffNil {α : Type} (l : List α) : l.isEmpty = true ↔ l = [] := by
  cases l <;> simp

/-- Stream used for the C5 scenario: the first stack-based import's true
operands are recalled from the memo table, while four stale literals sit
on the analyzer's simulated stack. -/
def memoStream : List OpRec :=
  [⟨"SHORT_BINUNICODE", .str "os", 2⟩, ⟨"BINPUT", .int 0, 6⟩,
   ⟨"POP", .none, 8⟩,
   ⟨"SHORT_BINUNICODE", .str "system", 9⟩, ⟨"BINPUT", .int 1, 17⟩,
   ⟨"POP", .none, 19⟩,
   ⟨"SHORT_BINUNICODE", .str "numpy", 20⟩, ⟨"POP", .none, 27⟩,
   ⟨"SHORT_BINUNICODE", .str "dtype", 28⟩, ⟨"POP", .none, 35⟩,
   ⟨"BINGET", .int 0, 36⟩, ⟨"BINGET", .int 1, 38⟩,
   ⟨"STACK_GLOBAL", .none, 40⟩, ⟨"STOP", .none, 41⟩]

/-- Stream used for the C1 scenario: a stack-based import of
`torchevil.pwn`, a name the analyzer rejects as a disallowed (resolved,
not unknown) target. -/
def torchevilStream : List OpRec :=
  [⟨"SHORT_BINUNICODE", .str "torchevil", 0⟩,
   ⟨"SHORT_BINUNICODE", .str "pwn", 11⟩,
   ⟨"STACK_GLOBAL", .none, 16⟩,
   ⟨"REDUCE", .none, 17⟩,
   ⟨"STOP", .none, 18⟩]

/-- C1: the claim says the restricted interpreter never constructs an
object whose qualified name is outside the allow-list and that `load`
raises on every stream the analyzer found disallowed.  On the stream
importing `torchevil.pwn` the analyzer reports a disallowed (resolved)
unsafe import and `is_safe = false`, yet `RestrictedUnpickler.find_class`
resolves `torchevil.pwn` (its module-prefix test `module.startswith("torch")`
has no module-boundary check), so the restricted load constructs the
object instead of raising: the code contradicts the claim. -/
theorem C1_interpreter_resolves_disallowed_name :
    (analyze_pickle_opcodes (.ok torchevilStream)).is_safe = false ∧
    (analyze_pickle_opcodes (.ok torchevilStream)).unsafe_imports =
      ["torchevil.pwn"] ∧
    find_class "torchevil" "pwn" = .ok ("torchevil", "pwn") ∧
    allowed_spec_interp "torchevil" "pwn" = false := by
  exact ⟨by decide, by decide, by rfl, by decide⟩

/-- C2: the claim says a name sharing only a textual prefix with an
allowed module, without a real module boundary, is never allowed by
either check.  The interpreter's check accepts module `collectionsx`
(prefix `collections` with no boundary), and the analyzer's check accepts
`evil_.dtype` through its attribute-access heuristic although that name
is neither an exact allow-list entry nor under an allowed module prefix:
the code contradicts the claim on both engines. -/
theorem C2_textual_prefix_is_accepted :
    find_class "collectionsx" "evil" = .ok ("collectionsx", "evil") ∧
    allowed_spec_interp "collectionsx" "evil" = false ∧
    _is_safe_import "evil_.dtype" = true ∧
    allowed_spec_analyzer "evil_.dtype" = false := by
  exact ⟨by rfl, by decide, by decide, by decide⟩

/-- C5: the claim says a stream whose stack-based import operands come
from unresolved memo references is classified unsafe, never safe.  In
`memoStream` both true operands of STACK_GLOBAL are memo recalls of
`os` and `system` (reference machine), but the analyzer — which never
pops its simulated stack for consuming opcodes and ignores memo opcodes —
resolves the import against four stale literals as `numpy.dtype` and
classifies the stream safe: the code contradicts the claim. -/
theorem C5_memo_operands_scored_safe :
    refStackGlobalOperands memoStream [] [] =
      some (RVal.memoRef "os", RVal.memoRef "system") ∧
    (analyze_pickle_opcodes (.ok memoStream)).stack_global_imports =
      ["numpy.dtype"] ∧
    (analyze_pickle_opcodes (.ok memoStream)).is_safe = true := by
  exact ⟨by decide, by decide, by decide⟩

/-- C6 counterexample: the claim says an invoke opcode (REDUCE) with no
traceable preceding resolved construction target is itself recorded as an
unresolved finding and contributes to an unsafe classification.  A stream
consisting of a lone REDUCE has no preceding resolution at all, yet the
analysis records no finding and classifies the stream safe. -/
theorem C6_lone_invoke_goes_unflagged :
    (analyze_pickle_opcodes
      (.ok [⟨"REDUCE", .none, 0⟩, ⟨"STOP", .none, 1⟩])).dangerous_opcodes =
        [] ∧
    (analyze_pickle_opcodes
      (.ok [⟨"REDUCE", .none, 0⟩, ⟨"STOP", .none, 1⟩])).is_safe = true := by
  exact ⟨by decide, by decide⟩

/-- Membership in the always-dangerous findings list. -/
theorem mem_always_dangerous_found {r : OpRec} {ops : List OpRec} :
    r ∈ always_dangerous_found ops ↔
      r ∈ ops ∧ r.name ∈ ALWAYS_DANGEROUS_OPCODES := by
  simp [always_dangerous_found, List.mem_filter]

/-- Membership in the potentially-dangerous findings list. -/
theorem mem_potentially_dangerous_found {r : OpRec} {ops : List OpRec} :
    r ∈ potentially_dangerous_found ops ↔
      r ∈ ops ∧ r.name ∈ POTENTIALLY_DANGEROUS_OPCODES := by
  simp [potentially_dangerous_found, List.mem_filter]

/-- C6 as amended: a REDUCE record of the stream appears among the
dangerous-opcode findings exactly when the stream also has at least one
disallowed or unresolved import; a REDUCE alone is never flagged and
never affects the safety verdict. -/
theorem C6_invoke_flagged_iff_unsafe_imports
    (ops : List OpRec) (r : OpRec) (hmem : r ∈ ops)
    (hname : r.name = "REDUCE") :
    r ∈ (analyze_pickle_opcodes (.ok ops)).dangerous_opcodes ↔
      unsafe_imports ops ≠ [] := by
  have hA : r ∉ always_dangerous_found ops := by
    rw [mem_always_dangerous_found, hname]
    rintro ⟨-, h⟩
    exact absurd h (by decide)
  have hP : r ∈ potentially_dangerous_found ops := by
    rw [mem_potentially_dangerous_found, hname]
    exact ⟨hmem, by decide⟩
  simp only [analyze_pickle_opcodes, List.mem_append]
  by_cases h : unsafe_imports ops = []
  · simp [h, hA]
  · have hb : (unsafe_imports ops).isEmpty = false := by
      cases hu : unsafe_imports ops with
      | nil => exact absurd hu h
      | cons a l => simp [hu, List.isEmpty]
    simp [hb, hA, hP, h]

/-- Stream with both an unsafe import and an invoke opcode, used to
discharge the hypotheses of the amended C6 theorem. -/
def globalReduceStream : List OpRec :=
  [⟨"GLOBAL", .str "os.system", 0⟩, ⟨"REDUCE", .none, 11⟩,
   ⟨"STOP", .none, 12⟩]

/-- Witness for the amended C6 theorem at a concrete stream. -/
theorem C6_invoke_flagged_iff_unsafe_imports_witness :
    ((⟨"REDUCE", .none, 11⟩ : OpRec) ∈ globalReduceStream ∧
      (⟨"REDUCE", .none, 11⟩ : OpRec).name = "REDUCE") ∧
    ((⟨"REDUCE", .none, 11⟩ : OpRec) ∈
        (analyze_pickle_opcodes (.ok globalReduceStream)).dangerous_opcodes ↔
      unsafe_imports globalReduceStream ≠ []) :=
  ⟨⟨by decide, rfl⟩,
    C6_invoke_flagged_iff_unsafe_imports globalReduceStream _ (by decide) rfl⟩

/-- C7 counterexample: the claim says the archive scan scans every member
and is unsafe exactly when some member yields a finding.  An archive
whose only member is named `payload.bin` and holds a stream importing
`os.system` is reported safe with no threats, although analyzing that
member yields a disallowed import: members not named `*.pkl` are skipped
entirely. -/
theorem C7_non_pkl_member_skipped :
    (_scan_zip_archive
      (.ok [("payload.bin", .ok globalReduceStream)])).is_safe = true ∧
    (_scan_zip_archive
      (.ok [("payload.bin", .ok globalReduceStream)])).threats = [] ∧
    (analyze_pickle_opcodes (.ok globalReduceStream)).is_safe = false ∧
    (analyze_pickle_opcodes (.ok globalReduceStream)).unsafe_imports ≠ [] := by
  exact ⟨by decide, by decide, by decide, by decide⟩

/-- The archive-scan fold produces the empty threat list exactly when the
accumulator is empty and every `.pkl`-named member contributes no
threats. -/
theorem zipFold_eq_nil
    (members : List (String × Except String (List OpRec)))
    (acc : List String) :
    members.foldl
        (fun a m =>
          if strEnds m.1 ".pkl" then
            a ++ member_threats m.1 (analyze_pickle_opcodes m.2)
          else a) acc = [] ↔
      acc = [] ∧ ∀ m ∈ members, strEnds m.1 ".pkl" = true →
        member_threats m.1 (analyze_pickle_opcodes m.2) = [] := by
  induction members generalizing acc with
  | nil => simp
  | cons m l ih =>
    simp only [List.foldl_cons, ih, List.mem_cons]
    by_cases h : strEnds m.1 ".pkl" = true
    · rw [if_pos h, List.append_eq_nil]
      constructor
      · rintro ⟨⟨ha, hm⟩, h2⟩
        refine ⟨ha, fun x hx => ?_⟩
        rcases hx with rfl | hx
        · intro _; exact hm
        · exact h2 x hx
      · rintro ⟨ha, h2⟩
        exact ⟨⟨ha, h2 m (Or.inl rfl) h⟩, fun x hx => h2 x (Or.inr hx)⟩
    · rw [if_neg h]
      constructor
      · rintro ⟨h1, h2⟩
        refine ⟨h1, fun x hx => ?_⟩
        rcases hx with rfl | hx
        · intro hc; exact absurd hc h
        · exact h2 x hx
      · rintro ⟨ha, h2⟩
        exact ⟨ha, fun x hx => h2 x (Or.inr hx)⟩

/-- A character list is a prefix of itself followed by anything. -/
theorem listPref_self_append (l r : List Char) :
    listPref l (l ++ r) = true := by
  induction l with
  | nil => rfl
  | cons a as ih => simp [listPref, ih]

/-- A string starts with itself followed by anything. -/
theorem strStarts_append (a b : String) : strStarts (a ++ b) a = true := by
  cases a with
  | mk la =>
    cases b with
    | mk lb => simpa [strStarts, String.data] using listPref_self_append la lb

/-- Every string in a member's threat contribution starts with that
member's file name. -/
theorem member_threats_prefixed (fname : String) (a : AnalysisResult) :
    ∀ t ∈ member_threats fname a, strStarts t fname = true := by
  intro t ht
  rcases List.mem_append.mp ht with h | h
  · rcases List.mem_map.mp h with ⟨op, -, rfl⟩
    have := strStarts_append fname (": Dangerous opcode " ++ op.name)
    simpa [String.append_assoc] using this
  · rcases List.mem_map.mp h with ⟨imp, -, rfl⟩
    have := strStarts_append fname (": Unsafe import " ++ imp)
    simpa [String.append_assoc] using this

/-- Membership in the archive-scan fold: a threat comes from the
accumulator or from some `.pkl`-named member. -/
theorem mem_zipFold
    (members : List (String × Except String (List OpRec)))
    (acc : List String) (t : String) :
    t ∈ members.foldl
        (fun a m =>
          if strEnds m.1 ".pkl" then
            a ++ member_threats m.1 (analyze_pickle_opcodes m.2)
          else a) acc ↔
      t ∈ acc ∨ ∃ m ∈ members, strEnds m.1 ".pkl" = true ∧
        t ∈ member_threats m.1 (analyze_pickle_opcodes m.2) := by
  induction members generalizing acc with
  | nil => simp
  | cons m l ih =>
    simp only [List.foldl_cons, ih, List.mem_cons]
    by_cases h : strEnds m.1 ".pkl" = true
    · rw [if_pos h]
      constructor
      · rintro (hm | hrest)
        · rcases List.mem_append.mp hm with h1 | h1
          · exact Or.inl h1
          · exact Or.inr ⟨m, Or.inl rfl, h, h1⟩
        · rcases hrest with ⟨x, hx, hps, hts⟩
          exact Or.inr ⟨x, Or.inr hx, hps, hts⟩
      · rintro (hm | ⟨x, hx, hps, hts⟩)
        · exact Or.inl (List.mem_append.mpr (Or.inl hm))
        · rcases hx with rfl | hx
          · exact Or.inl (List.mem_append.mpr (Or.inr hts))
          · exact Or.inr ⟨x, hx, hps, hts⟩
    · rw [if_neg h]
      constructor
      · rintro (hm | ⟨x, hx, hps, hts⟩)
        · exact Or.inl hm
        · exact Or.inr ⟨x, Or.inr hx, hps, hts⟩
      · rintro (hm | ⟨x, hx, hps, hts⟩)
        · exact Or.inl hm
        · rcases hx with rfl | hx
          · exact absurd hps h
          · exact Or.inr ⟨x, hx, hps, hts⟩

/-- C7 as amended: the archive scan analyzes exactly the members whose
name ends in `.pkl`; it is safe exactly when no such member yields a
dangerous-opcode or unsafe-import finding (so skipped members and members
whose analysis fails to parse contribute nothing), and every reported
threat is labeled with the member name it came from. -/
theorem C7_zip_scan_characterized
    (members : List (String × Except String (List OpRec))) :
    ((_scan_zip_archive (.ok members)).is_safe = true ↔
      ∀ m ∈ members, strEnds m.1 ".pkl" = true →
        (analyze_pickle_opcodes m.2).dangerous_opcodes = [] ∧
        (analyze_pickle_opcodes m.2).unsafe_imports = []) ∧
    (∀ t ∈ (_scan_zip_archive (.ok members)).threats,
      ∃ m ∈ members, strEnds m.1 ".pkl" = true ∧ strStarts t m.1 = true) := by
  constructor
  · simp only [_scan_zip_archive]
    rw [isEmptyIffNil, zipFold_eq_nil]
    simp only [true_and]
    constructor
    · intro h m hm hp
      have := h m hm hp
      rw [member_threats, List.append_eq_nil] at this
      exact ⟨List.map_eq_nil_iff.mp this.1, List.map_eq_nil_iff.mp this.2⟩
    · intro h m hm hp
      rcases h m hm hp with ⟨h1, h2⟩
      simp [member_threats, h1, h2]
  · intro t ht
    simp only [_scan_zip_archive] at ht
    have := (mem_zipFold members [] t).mp ht
    rcases this with h | ⟨m, hm, hp, hts⟩
    · exact absurd h (List.not_mem_nil t)
    · exact ⟨m, hm, hp, member_threats_prefixed m.1 _ t hts⟩

/-- Archive with a single benign `.pkl` member, used to instantiate the
C7 characterization. -/
def benignArchive : List (String × Except String (List OpRec)) :=
  [("data.pkl", .ok [⟨"EMPTY_DICT", .none, 0⟩, ⟨"STOP", .none, 1⟩])]

/-- Witness for the C7 characterization at a concrete archive. -/
theorem C7_zip_scan_characterized_witness :
    (∀ m ∈ benignArchive, strEnds m.1 ".pkl" = true →
      (analyze_pickle_opcodes m.2).dangerous_opcodes = [] ∧
      (analyze_pickle_opcodes m.2).unsafe_imports = []) ∧
    (_scan_zip_archive (.ok benignArchive)).is_safe = true :=
  ⟨by decide, (C7_zip_scan_characterized benignArchive).1.mpr (by decide)⟩

/-- C3: on a stream that disassembles, the verdict is safe exactly when
there are no always-dangerous opcode findings and no disallowed or
unresolved import targets (`unsafe_imports` collects both the names
failing the allow check and the UNKNOWN_STACK_GLOBAL unresolved marker);
in particular any stream containing an extension-registry opcode is
classified unsafe regardless of name resolution. -/
theorem C3_is_safe_characterized (ops : List OpRec) :
    ((analyze_pickle_opcodes (.ok ops)).is_safe = true ↔
      always_dangerous_found ops = [] ∧ unsafe_imports ops = []) ∧
    ∀ r ∈ ops, r.name ∈ ALWAYS_DANGEROUS_OPCODES →
      (analyze_pickle_opcodes (.ok ops)).is_safe = false := by
  constructor
  · simp only [analyze_pickle_opcodes, Bool.and_eq_true, isEmptyIffNil]
  · intro r hr hN
    have hmem : r ∈ always_dangerous_found ops :=
      mem_always_dangerous_found.mpr ⟨hr, hN⟩
    have hne : always_dangerous_found ops ≠ [] := List.ne_nil_of_mem hmem
    simp only [analyze_pickle_opcodes]
    cases hcase : always_dangerous_found ops with
    | nil => exact absurd hcase hne
    | cons a l => simp [hcase]

/-- Stream holding an extension-registry opcode, for the C3 witness. -/
def extStream : List OpRec :=
  [⟨"PROTO", .int 4, 0⟩, ⟨"EXT1", .int 7, 2⟩, ⟨"STOP", .none, 4⟩]

/-- Witness for the C3 characterization: an EXT1 stream is unsafe. -/
theorem C3_is_safe_characterized_witness :
    ((⟨"EXT1", .int 7, 2⟩ : OpRec) ∈ extStream ∧
      "EXT1" ∈ ALWAYS_DANGEROUS_OPCODES) ∧
    (analyze_pickle_opcodes (.ok extStream)).is_safe = false :=
  ⟨⟨by decide, by decide⟩,
    (C3_is_safe_characterized extStream).2 ⟨"EXT1", .int 7, 2⟩ (by decide)
      (by decide)⟩

/-- C4: the analyzer never raises — a disassembly fault is folded into an
unsafe verdict carrying the parse-error detail — and the file-level scan
converts every fault of its format dispatch into an unsafe result with
an error detail instead of propagating it.  (In this embedding both
operations are total functions; the `error` constructors stand for the
exceptions the Python code catches.) -/
theorem C4_faults_become_unsafe_verdicts :
    (∀ e, (analyze_pickle_opcodes (.error e)).is_safe = false ∧
      (analyze_pickle_opcodes (.error e)).error ≠ none) ∧
    (∀ (ext : String) (pe isF : Bool) (data : List Nat) (isZip : Bool)
      (parsed : Except String (List OpRec))
      (archive : Except String (List (String × Except String (List OpRec))))
      (e : String),
      _scan_by_format ext data isZip parsed archive = .error e →
        (scan_file ext pe isF data isZip parsed archive).is_safe = false ∧
        (scan_file ext pe isF data isZip parsed archive).error ≠ none) := by
  constructor
  · intro e
    exact ⟨rfl, by simp [analyze_pickle_opcodes]⟩
  · intro ext pe isF data isZip parsed archive e h
    cases pe with
    | false => exact ⟨rfl, by simp [scan_file]⟩
    | true =>
      cases isF with
      | false => exact ⟨rfl, by simp [scan_file]⟩
      | true =>
        by_cases hs : strLower ext ∈ supported_extensions
        · simp [scan_file, hs, h]
        · simp [scan_file, hs]

/-- Witness for C4: a truncated stream and an unsupported format, both
folded into unsafe results. -/
theorem C4_faults_become_unsafe_verdicts_witness :
    ((analyze_pickle_opcodes (.error "truncated")).is_safe = false ∧
      (analyze_pickle_opcodes (.error "truncated")).error ≠ none) ∧
    (_scan_by_format ".xyz" [] false (.ok []) (.ok []) =
        .error "Unsupported format: .xyz" ∧
      (scan_file ".xyz" true true [] false (.ok []) (.ok [])).is_safe =
        false) :=
  ⟨C4_faults_become_unsafe_verdicts.1 "truncated",
    ⟨by rfl,
      (C4_faults_become_unsafe_verdicts.2 ".xyz" true true [] false (.ok [])
        (.ok []) "Unsupported format: .xyz" (by rfl)).1⟩⟩

/-- C8: the analysis is deterministic — equal disassembly outcomes yield
byte-for-byte identical verdicts, every field included; the embedded
analysis is a pure function of the stream and the fixed classification
tables. -/
theorem C8_analysis_deterministic (r₁ r₂ : Except String (List OpRec))
    (h : r₁ = r₂) :
    analyze_pickle_opcodes r₁ = analyze_pickle_opcodes r₂ := by
  rw [h]

/-- Witness for determinism at a concrete stream. -/
theorem C8_analysis_deterministic_witness :
    ((Except.ok [(⟨"EMPTY_DICT", .none, 0⟩ : OpRec)] :
        Except String (List OpRec)) =
      Except.ok [(⟨"EMPTY_DICT", .none, 0⟩ : OpRec)]) ∧
    analyze_pickle_opcodes (.ok [⟨"EMPTY_DICT", .none, 0⟩]) =
      analyze_pickle_opcodes (.ok [⟨"EMPTY_DICT", .none, 0⟩]) :=
  ⟨rfl, C8_analysis_deterministic _ _ rfl⟩

/-- C9: with no trusted signers configured every signer identity is
trusted; with a non-empty trusted list, trust is exact membership. -/
theorem C9_signer_trust (c : PolicyConfig) (signer : String) :
    (c.trusted_signers = [] → is_signer_trusted c signer = true) ∧
    (c.trusted_signers ≠ [] →
      (is_signer_trusted c signer = true ↔ signer ∈ c.trusted_signers)) := by
  constructor
  · intro h
    simp [is_signer_trusted, h]
  · intro h
    have hb : c.trusted_signers.isEmpty = false := by
      cases hc : c.trusted_signers with
      | nil => exact absurd hc h
      | cons a l => rfl
    simp [is_signer_trusted, hb]

/-- Policy with one trusted signer, for the C9 witness. -/
def trustCfg : PolicyConfig := { trusted_signers := ["alice"] }

/-- Witness for the signer-trust theorem at concrete policies. -/
theorem C9_signer_trust_witness :
    (({} : PolicyConfig).trusted_signers = [] ∧
      is_signer_trusted {} "anyone" = true) ∧
    (trustCfg.trusted_signers ≠ [] ∧
      (is_signer_trusted trustCfg "bob" = true ↔
        "bob" ∈ trustCfg.trusted_signers)) :=
  ⟨⟨rfl, (C9_signer_trust {} "anyone").1 rfl⟩,
    ⟨by decide, (C9_signer_trust trustCfg "bob").2 (by decide)⟩⟩

/-- The extensions `_scan_by_format` routes to the pickle scanner. -/
def pickle_extensions : List String :=
  [".pkl", ".pickle", ".pth", ".pt", ".joblib"]

/-- C10: a file whose (lowered) extension is unsupported is reported
unsafe with an error detail, and a pickle-extension file whose content
neither carries a protocol-2..5 marker nor starts with `(`, `]` or `}`
and is not a zip archive is likewise reported unsafe with an error
detail — so byte-wise valid legacy streams beginning with any other
opcode byte are rejected rather than scanned. -/
theorem C10_extension_and_content_gate (ext : String) (pe isF : Bool)
    (data : List Nat) (isZip : Bool) (parsed : Except String (List OpRec))
    (archive : Except String (List (String × Except String (List OpRec)))) :
    (strLower ext ∉ supported_extensions →
      (scan_file ext pe isF data isZip parsed archive).is_safe = false ∧
      (scan_file ext pe isF data isZip parsed archive).error ≠ none) ∧
    (strLower ext ∈ pickle_extensions → _is_pickle_data data = false →
      isZip = false →
      (scan_file ext pe isF data isZip parsed archive).is_safe = false ∧
      (scan_file ext pe isF data isZip parsed archive).error ≠ none) := by
  constructor
  · intro h
    cases pe with
    | false => exact ⟨rfl, by simp [scan_file]⟩
    | true =>
      cases isF with
      | false => exact ⟨rfl, by simp [scan_file]⟩
      | true => simp [scan_file, h]
  · intro h1 h2 h3
    subst h3
    cases pe with
    | false => exact ⟨rfl, by simp [scan_file]⟩
    | true =>
      cases isF with
      | false => exact ⟨rfl, by simp [scan_file]⟩
      | true =>
        simp only [pickle_extensions, List.mem_cons, List.not_mem_nil,
          or_false] at h1
        rcases h1 with h1 | h1 | h1 | h1 | h1 <;>
          · have hd : decide (strLower ext ∈ supported_extensions) = true := by
              rw [h1]; decide
            simp [scan_file, _scan_by_format, _scan_pickle_based, h1, h2, hd,
              supported_extensions]

/-- Witness for C10: an unknown extension, and a `.pkl` file whose bytes
are the legacy stream `N.` (NONE then STOP). -/
theorem C10_extension_and_content_gate_witness :
    (strLower ".xyz" ∉ supported_extensions ∧
      (scan_file ".xyz" true true [] false (.ok []) (.ok [])).is_safe =
        false) ∧
    (strLower ".pkl" ∈ pickle_extensions ∧ _is_pickle_data [78, 46] = false ∧
      (scan_file ".pkl" true true [78, 46] false
        (.ok [⟨"NONE", .none, 0⟩, ⟨"STOP", .none, 1⟩]) (.ok [])).is_safe =
          false ∧
      (scan_file ".pkl" true true [78, 46] false
        (.ok [⟨"NONE", .none, 0⟩, ⟨"STOP", .none, 1⟩]) (.ok [])).error ≠
          none) :=
  ⟨⟨by decide,
      ((C10_extension_and_content_gate ".xyz" true true [] false (.ok [])
        (.ok [])).1 (by decide)).1⟩,
    ⟨by decide, by decide,
      ((C10_extension_and_content_gate ".pkl" true true [78, 46] false
        (.ok [⟨"NONE", .none, 0⟩, ⟨"STOP", .none, 1⟩]) (.ok [])).2
          (by decide) (by decide) rfl).1,
      ((C10_extension_and_content_gate ".pkl" true true [78, 46] false
        (.ok [⟨"NONE", .none, 0⟩, ⟨"STOP", .none, 1⟩]) (.ok [])).2
          (by decide) (by decide) rfl).2⟩⟩
